import Mathlib

/-!
Verification of the Slack MCP adapter (slack_api.py and slack_mcp_server.py).

The development shallow-embeds the transport client (`SlackAPIClient`) and the
tool adapter layer as total Lean functions.  The single HTTP exchange a call
performs is modelled by an explicit outcome value (`HTTPResult`) supplied by
the environment, and the request each operation sends is reified as an
`OutboundCall` value so that theorems can speak about what reaches the wire.
Python `dict` payloads are embedded as structures holding exactly the fields
the code reads; `.get(k, d)` accesses become `Option` fields read with `getD`,
and Python truthiness tests on strings and integers are spelled out where the
source relies on them.
-/

namespace SlackMCP

/-! Python string primitives, modelled on the character list of a `String`
(these reduce inside the kernel, unlike the byte-position based core
operations). -/

/-- Pattern `pat` is a leading segment of `s` (character lists). -/
def listStartsWith : List Char → List Char → Bool
  | [], _ => true
  | _ :: _, [] => false
  | p :: ps, s :: ss => if p = s then listStartsWith ps ss else false

/-- Pattern occurs somewhere inside the character list (Python `pat in s`). -/
def listHasSub : List Char → List Char → Bool
  | pat, [] => pat.isEmpty
  | pat, s :: ss => listStartsWith pat (s :: ss) || listHasSub pat ss

/-- Python substring test `pat in s`. -/
def hasSubstr (s pat : String) : Bool := listHasSub pat.data s.data

/-- Python `s.startswith(pat)`. -/
def pyStartsWith (s pat : String) : Bool := listStartsWith pat.data s.data

/-- Python `c in s` for a single character (used for `',' in channels`). -/
def pyContainsChar (s : String) (c : Char) : Bool := s.data.contains c

/-- Split a character list at every occurrence of `c` (Python `s.split(c)`). -/
def splitOnChar (c : Char) : List Char → List (List Char)
  | [] => [[]]
  | x :: xs =>
    let r := splitOnChar c xs
    if x = c then [] :: r
    else
      match r with
      | [] => [[x]]
      | seg :: rest => (x :: seg) :: rest

/-- Python `s.split(",")`. -/
def pySplitComma (s : String) : List String :=
  (splitOnChar ',' s.data).map String.mk

/-- Python `s.strip(c)` for a single strip character: removes every leading and
trailing occurrence of `c`. -/
def pyStrip (c : Char) (s : String) : String :=
  String.mk (((s.data.dropWhile (fun a => a == c)).reverse.dropWhile
    (fun a => a == c)).reverse)

/-- Python `s.strip()` (whitespace on both ends), used on the channel-list
fragments of the upload tool. -/
def pyTrim (s : String) : String :=
  String.mk (((s.data.dropWhile Char.isWhitespace).reverse.dropWhile
    Char.isWhitespace).reverse)

/-- Python truthiness of an optional string (`None` and `""` are falsy). -/
def optTruthy (o : Option String) : Bool :=
  match o with
  | some s => !s.isEmpty
  | none => false

/-- Stable ascending insertion of an element into a sorted list; an element is
placed before every strictly greater one and after equal ones already present.
Together with `stableSort` this models Python `list.sort`, which is a stable
ascending sort. -/
def insSorted (le : α → α → Bool) (x : α) : List α → List α
  | [] => [x]
  | y :: ys => if le x y then x :: y :: ys else y :: insSorted le x ys

/-- Stable ascending sort (model of Python `list.sort(key=...)`). -/
def stableSort (le : α → α → Bool) : List α → List α
  | [] => []
  | x :: xs => insSorted le x (stableSort le xs)

/-! Data model: the dataclasses of slack_api.py. -/

/-- Dataclass `SlackMessage` of slack_api.py. -/
structure SlackMessage where
  text : String
  user : String
  timestamp : String
  channel : String
  user_name : Option String := none
  thread_ts : Option String := none
deriving DecidableEq

/-- Dataclass `SlackChannel` of slack_api.py. -/
structure SlackChannel where
  id : String
  name : String
  is_private : Bool
  is_member : Bool
  topic : Option String := none
  purpose : Option String := none
  num_members : Option Int := none
deriving DecidableEq

/-- Dataclass `SlackUser` of slack_api.py. -/
structure SlackUser where
  id : String
  name : String
  real_name : String
  email : Option String := none
  is_bot : Bool := false
  is_admin : Bool := false
  status : Option String := none
deriving DecidableEq

/-- Exception class `SlackAPIError` of slack_api.py.  The Python class also
stores the raw response dict for diagnostics; that field is written but never
read anywhere in the repository, so the embedding keeps only the error
message. -/
structure SlackAPIError where
  error : String
deriving DecidableEq

/-- Python `str(e)` for a `SlackAPIError`: the constructor calls
`super().__init__(f"Slack API Error: {error}")`. -/
def errStr (e : SlackAPIError) : String := ("Slack API Error: ") ++ e.error

/-! Raw (decoded JSON) response shapes.  Each structure holds exactly the
fields the code reads from the corresponding response dict; `Option` marks
fields read with `.get` (absent key modelled by `none`). -/

/-- A decoded response body: the success flag and error tag read by
`_make_request`, plus the endpoint-specific payload the caller consumes. -/
structure RawBody (α : Type) where
  ok : Bool
  error : Option String := none
  payload : α
deriving DecidableEq

/-- Outcome of the single HTTP exchange performed by `_make_request`, as seen
by the Python code: either `requests.get/post` raised a
`requests.exceptions.RequestException` carrying message `msg`, or a response
was delivered with an HTTP status, the message `raise_for_status` would put in
its `HTTPError` for that status, and a body that is either undecodable JSON
(with the `json.JSONDecodeError` message) or a decoded `RawBody`. -/
inductive HTTPResult (α : Type) where
  | netExn (msg : String)
  | response (status : Nat) (httpErrMsg : String) (body : Except String (RawBody α))

/-- An entry of a `messages` array (conversations.history / conversations.replies). -/
structure RawMessage where
  subtype : Option String := none
  text : Option String := none
  user : Option String := none
  ts : Option String := none
  thread_ts : Option String := none
deriving DecidableEq

/-- An entry of the `channels` array of conversations.list.  `topic` and
`purpose` hold the nested `.get('topic', {}).get('value')` projection. -/
structure RawChannel where
  id : String
  name : String
  is_private : Bool := false
  is_member : Bool := false
  topic : Option String := none
  purpose : Option String := none
  num_members : Option Int := none
deriving DecidableEq

/-- An entry of the `members` array of users.list, also the `user` object of
users.info.  `email` and `status_text` hold the nested `profile` projections. -/
structure RawUser where
  id : String
  name : String
  real_name : Option String := none
  email : Option String := none
  is_bot : Bool := false
  is_admin : Bool := false
  status_text : Option String := none
  deleted : Bool := false
deriving DecidableEq

/-- Fields of the chat.postMessage response read by the adapter. -/
structure SendPayload where
  ts : Option String := none
  channel : Option String := none
deriving DecidableEq

/-- The `result['channel']['id']` of conversations.open. -/
structure OpenPayload where
  channel_id : String
deriving DecidableEq

/-- The `upload_url` and `file_id` of files.getUploadURLExternal. -/
structure UploadTicket where
  upload_url : String
  file_id : String
deriving DecidableEq

/-- A file object inside the files.completeUploadExternal response. -/
structure RawFileInfo where
  name : Option String := none
  size : Option Int := none
deriving DecidableEq

/-- Fields of the files.completeUploadExternal response read by the adapter. -/
structure CompletePayload where
  files : Option (List RawFileInfo) := none
  file : Option RawFileInfo := none
deriving DecidableEq

/-- Fields of the auth.test response read by the adapter. -/
structure AuthPayload where
  team : Option String := none
  user : Option String := none
  team_id : Option String := none
  user_id : Option String := none
deriving DecidableEq

/-- A search.messages match, holding the projections the adapter reads
(`result.get('messages', {}).get('matches', [])` entries). -/
structure RawMatch where
  text : Option String := none
  userName : Option String := none
  channelName : Option String := none
  ts : Option String := none
deriving DecidableEq

/-! Reified outbound requests. -/

/-- A value of a query-parameter / body dict (requests stringifies these on
the wire; the embedding keeps them typed). -/
inductive PVal where
  | s (v : String)
  | i (v : Int)
  | b (v : Bool)
deriving DecidableEq

/-- The body dict of files.completeUploadExternal. -/
structure CompleteData where
  file_id : String
  title : String
  channel_id : String
  initial_comment : Option String := none
deriving DecidableEq

/-- One outbound HTTP request: a Slack Web API call with its method, endpoint
and parameter/body dict, the bare upload POST of upload step two, or the
finalize request of upload step three. -/
inductive OutboundCall where
  | api (method : String) (endpoint : String) (params : List (String × PVal))
  | filePost (url : String) (fileName : String)
  | completeReq (data : CompleteData)
deriving DecidableEq

namespace SlackAPIClient

/-- `SlackAPIClient._make_request` (slack_api.py lines 83-147), given the
outcome of its one HTTP exchange.  The request issuance itself (method
dispatch, URL, auth headers, 30s timeout) is the environment that produced the
`HTTPResult`.  Mirrors the Python control flow: a `RequestException` from
`requests.get/post` or from `raise_for_status` (which raises exactly for
status >= 400) is caught first and rendered as a network error; a JSON decode
failure is rendered as a decode error; a decoded body with a falsy `ok` flag
raises a remote error carrying the service tag. -/
def _make_request (h : HTTPResult α) : Except SlackAPIError (RawBody α) :=
  match h with
  | .netExn msg => .error { error := ("Network error: ") ++ msg }
  | .response status httpErrMsg body =>
    if 400 ≤ status then
      .error { error := ("Network error: ") ++ httpErrMsg }
    else
      match body with
      | .error decodeMsg => .error { error := ("JSON decode error: ") ++ decodeMsg }
      | .ok b =>
        if b.ok then .ok b
        else .error { error := b.error.getD ("Unknown error") }

/-- `SlackAPIClient.send_message` (lines 149-178): strips a leading `#`,
builds the chat.postMessage body (thread_ts only when truthy) and performs the
request. -/
def send_message (channel text : String) (thread_ts : Option String)
    (h : HTTPResult SendPayload) :
    OutboundCall × Except SlackAPIError (RawBody SendPayload) :=
  let channel' := if pyStartsWith channel ("#") then channel.drop 1 else channel
  let base := [(("channel"), PVal.s channel'), (("text"), PVal.s text),
    (("unfurl_links"), PVal.b true), (("unfurl_media"), PVal.b true)]
  let data :=
    match thread_ts with
    | some t => if t.isEmpty then base else base ++ [(("thread_ts"), PVal.s t)]
    | none => base
  (OutboundCall.api ("POST") ("chat.postMessage") data, _make_request h)

/-- The conversations.list query of `get_channels` (lines 194-198). -/
def get_channels_params (exclude_archived : Bool) : List (String × PVal) :=
  [(("types"), PVal.s ("public_channel")),
   (("exclude_archived"), PVal.b exclude_archived),
   (("limit"), PVal.i 1000)]

/-- The per-entry normalization of `get_channels` (lines 203-213). -/
def rawToChannel (c : RawChannel) : SlackChannel :=
  { id := c.id, name := c.name, is_private := c.is_private,
    is_member := c.is_member, topic := c.topic, purpose := c.purpose,
    num_members := c.num_members }

/-- `SlackAPIClient.get_channels` (lines 180-223): lists public channels,
normalizes each entry, and rewrites a `missing_scope` failure (detected by
substring on the error message) into scope guidance naming `channels:read`. -/
def get_channels (exclude_archived : Bool) (h : HTTPResult (List RawChannel)) :
    OutboundCall × Except SlackAPIError (List SlackChannel) :=
  (OutboundCall.api ("GET") ("conversations.list") (get_channels_params exclude_archived),
    match _make_request h with
    | .ok body => .ok (body.payload.map rawToChannel)
    | .error e =>
      if hasSubstr e.error ("missing_scope") then
        .error { error := "채널 목록 조회 권한이 없습니다. 'channels:read' 스코프가 필요합니다." }
      else .error e)

/-- The subtype values skipped by `get_channel_history` (line 263). -/
def noise_subtypes : List String :=
  [("bot_message"), ("channel_join"), ("channel_leave")]

/-- The line-263 test `msg_data.get('subtype') in [...]` (Python `None` is
never an element of a list of strings). -/
def isNoise (st : Option String) : Bool :=
  match st with
  | some s => noise_subtypes.contains s
  | none => false

/-- The conversations.history query of `get_channel_history` (lines 248-256):
the requested count is hard-capped at 100 and the optional window bounds are
attached only when truthy. -/
def get_channel_history_params (channel_id : String) (limit : Int)
    (oldest latest : Option String) : List (String × PVal) :=
  let base := [(("channel"), PVal.s channel_id), (("limit"), PVal.i (min limit 100))]
  let p1 :=
    match oldest with
    | some o => if o.isEmpty then base else base ++ [(("oldest"), PVal.s o)]
    | none => base
  match latest with
  | some l => if l.isEmpty then p1 else p1 ++ [(("latest"), PVal.s l)]
  | none => p1

/-- The per-entry normalization of `get_channel_history` (lines 266-272). -/
def rawToHistoryMessage (channel_id : String) (m : RawMessage) : SlackMessage :=
  { text := m.text.getD (""), user := m.user.getD (""),
    timestamp := m.ts.getD (""), channel := channel_id,
    thread_ts := m.thread_ts }

/-- `SlackAPIClient.get_channel_history` (lines 225-283): fetches a page of
history, skips entries whose subtype is in `noise_subtypes`, normalizes the
rest, and rewrites a `missing_scope` failure into scope guidance naming
`channels:history`. -/
def get_channel_history (channel_id : String) (limit : Int)
    (oldest latest : Option String) (h : HTTPResult (List RawMessage)) :
    OutboundCall × Except SlackAPIError (List SlackMessage) :=
  (OutboundCall.api ("GET") ("conversations.history")
      (get_channel_history_params channel_id limit oldest latest),
    match _make_request h with
    | .ok body =>
      .ok ((body.payload.filter (fun m => !(isNoise m.subtype))).map
        (rawToHistoryMessage channel_id))
    | .error e =>
      if hasSubstr e.error ("missing_scope") then
        .error { error := "채널 히스토리 조회 권한이 없습니다. 'channels:history' 스코프가 필요합니다." }
      else .error e)

/-- `SlackAPIClient.send_direct_message` (lines 285-327): opens a DM channel
for the user, then reuses `send_message` against the opened channel id; a
failure of either step is re-raised unchanged (the except clause only prints
diagnostics). -/
def send_direct_message (user_id text : String)
    (hOpen : HTTPResult OpenPayload) (hSend : HTTPResult SendPayload) :
    List OutboundCall × Except SlackAPIError (RawBody SendPayload) :=
  let openCall := OutboundCall.api ("POST") ("conversations.open")
    [(("users"), PVal.s user_id)]
  match _make_request hOpen with
  | .error e => ([openCall], .error e)
  | .ok ob =>
    let (sendCall, res) := send_message ob.payload.channel_id text none hSend
    ([openCall, sendCall], res)

/-- The users.list query of `get_users` (lines 342-344): count capped at 1000. -/
def get_users_params (limit : Int) : List (String × PVal) :=
  [(("limit"), PVal.i (min limit 1000))]

/-- The per-entry normalization shared by `get_users` and `get_user_info`
(lines 353-361 and 386-394). -/
def rawToUser (u : RawUser) : SlackUser :=
  { id := u.id, name := u.name, real_name := u.real_name.getD (""),
    email := u.email, is_bot := u.is_bot, is_admin := u.is_admin,
    status := u.status_text }

/-- `SlackAPIClient.get_users` (lines 329-364): lists users, dropping entries
marked deleted. -/
def get_users (limit : Int) (h : HTTPResult (List RawUser)) :
    OutboundCall × Except SlackAPIError (List SlackUser) :=
  (OutboundCall.api ("GET") ("users.list") (get_users_params limit),
    match _make_request h with
    | .ok body => .ok ((body.payload.filter (fun u => !u.deleted)).map rawToUser)
    | .error e => .error e)

/-- `SlackAPIClient.get_user_info` (lines 366-394). -/
def get_user_info (user_id : String) (h : HTTPResult RawUser) :
    OutboundCall × Except SlackAPIError SlackUser :=
  (OutboundCall.api ("GET") ("users.info") [(("user"), PVal.s user_id)],
    match _make_request h with
    | .ok body => .ok (rawToUser body.payload)
    | .error e => .error e)

/-- The search.messages query of `search_messages` (lines 417-421): count
capped at 100. -/
def search_messages_params (query : String) (count : Int) (sort : String) :
    List (String × PVal) :=
  [(("query"), PVal.s query), (("count"), PVal.i (min count 100)),
   (("sort"), PVal.s sort)]

/-- `SlackAPIClient.search_messages` (lines 396-434): searches and returns the
match list (the `result.get('messages', {}).get('matches', [])` projection);
on the `not_allowed_token_type` or `missing_scope` tags (exact membership
test) the error is rewritten into guidance naming `search:read` and quoting
the original tag. -/
def search_messages (query : String) (count : Int) (sort : String)
    (h : HTTPResult (List RawMatch)) :
    OutboundCall × Except SlackAPIError (List RawMatch) :=
  (OutboundCall.api ("GET") ("search.messages") (search_messages_params query count sort),
    match _make_request h with
    | .ok body => .ok body.payload
    | .error e =>
      if [("not_allowed_token_type"), ("missing_scope")].contains e.error then
        .error { error := ("메시지 검색 권한이 없습니다. Slack 앱의 OAuth 스코프에 'search:read'를 추가해주세요. 현재 오류: ") ++ e.error }
      else .error e)

/-- `SlackAPIClient.add_reaction` (lines 516-537): the reactions.add body
carries the emoji name argument verbatim. -/
def add_reaction (channel timestamp name : String) (h : HTTPResult Unit) :
    OutboundCall × Except SlackAPIError (RawBody Unit) :=
  (OutboundCall.api ("POST") ("reactions.add")
    [(("channel"), PVal.s channel), (("timestamp"), PVal.s timestamp),
     (("name"), PVal.s name)],
    _make_request h)

/-- The per-entry normalization of `get_thread_replies` (lines 562-568): note
the `'unknown'` default for the user, unlike history's `''`. -/
def rawToReplyMessage (channel : String) (m : RawMessage) : SlackMessage :=
  { text := m.text.getD (""), user := m.user.getD ("unknown"),
    timestamp := m.ts.getD (""), channel := channel,
    thread_ts := m.thread_ts }

/-- `SlackAPIClient.get_thread_replies` (lines 539-571): fetches
conversations.replies and normalizes every entry in order, dropping none. -/
def get_thread_replies (channel thread_ts : String)
    (h : HTTPResult (List RawMessage)) :
    OutboundCall × Except SlackAPIError (List SlackMessage) :=
  (OutboundCall.api ("GET") ("conversations.replies")
    [(("channel"), PVal.s channel), (("ts"), PVal.s thread_ts)],
    match _make_request h with
    | .ok body => .ok (body.payload.map (rawToReplyMessage channel))
    | .error e => .error e)

/-- `SlackAPIClient.test_connection` (lines 573-583). -/
def test_connection (h : HTTPResult AuthPayload) :
    OutboundCall × Except SlackAPIError (RawBody AuthPayload) :=
  (OutboundCall.api ("GET") ("auth.test") [], _make_request h)

/-- Python `os.path.basename` for the POSIX paths the upload code handles. -/
def basenameOf (p : String) : String :=
  ((splitOnChar '/' p.data).map String.mk).reverse.headD p

/-- The `channels` argument of `upload_file`: `Union[str, List[str]]`. -/
inductive ChannelsArg where
  | str (s : String)
  | list (l : List String)
deriving DecidableEq

/-- Outcome of the bare `requests.post(upload_url, files=...)` of upload step
two: either a `RequestException` or a delivered status code. -/
inductive Step2Result where
  | exn (msg : String)
  | status (code : Nat)
deriving DecidableEq

/-- Environment of one `upload_file` run: the local filesystem checks and the
outcome of each of the (up to) four HTTP exchanges it can perform. -/
structure UploadEnv where
  fsExists : String → Bool
  fileSize : Int
  listChannelsH : HTTPResult (List RawChannel)
  step1H : HTTPResult UploadTicket
  step2 : Step2Result
  step3H : HTTPResult CompletePayload

/-- Re-wrap of a non-`RequestException` exception `e` by the final
`except Exception` handler of `upload_file` (line 513-514):
`SlackAPIError(f"파일 업로드 실패: {str(e)}")`. -/
def wrapExc (desc : String) : SlackAPIError :=
  { error := ("파일 업로드 실패: ") ++ desc }

/-- The `channels[0]` access of upload step three; an empty list raises
`IndexError('list index out of range')`, which the outer handler re-wraps. -/
def channelIdOf : ChannelsArg → Except String String
  | .str s => .ok s
  | .list [] => .error ("list index out of range")
  | .list (c :: _) => .ok c

/-- `SlackAPIClient.upload_file` (lines 436-514).  The file-existence check
precedes the try block, so its `SlackAPIError` escapes unwrapped.  Inside the
try block a string `channels` argument not starting with `C` is resolved as a
channel NAME via `get_channels` (first exact match; a falsy resolved id —
`None` or `''` — raises channel-not-found); then the three-step protocol runs:
request an upload ticket, POST the bytes to the ticket URL requiring status
exactly 200, and finalize.  Every `SlackAPIError` raised inside the try block
is caught by `except Exception` and re-wrapped via `wrapExc ∘ errStr`; a
`RequestException` from the bare POST is caught by the dedicated handler
instead.  The first component lists the outbound requests actually issued. -/
def upload_file (channels : ChannelsArg) (file_path : String)
    (title initial_comment : Option String) (env : UploadEnv) :
    List OutboundCall × Except SlackAPIError (RawBody CompletePayload) :=
  if env.fsExists file_path = false then
    ([], .error { error := ("파일을 찾을 수 없습니다: ") ++ file_path })
  else
    let listCall := OutboundCall.api ("GET") ("conversations.list")
      (get_channels_params true)
    let resolved : List OutboundCall × Except SlackAPIError ChannelsArg :=
      match channels with
      | .str s =>
        if pyStartsWith s ("C") then ([], .ok (.str s))
        else
          match (get_channels true env.listChannelsH).2 with
          | .error e => ([listCall], .error (wrapExc (errStr e)))
          | .ok chans =>
            match chans.find? (fun c => c.name == s) with
            | some c =>
              if c.id.isEmpty then
                ([listCall], .error (wrapExc (errStr
                  { error := ("채널을 찾을 수 없습니다: ") ++ s })))
              else ([listCall], .ok (.str c.id))
            | none =>
              ([listCall], .error (wrapExc (errStr
                { error := ("채널을 찾을 수 없습니다: ") ++ s })))
      | .list l => ([], .ok (.list l))
    match resolved with
    | (calls, .error e) => (calls, .error e)
    | (calls, .ok channels') =>
      let file_name := basenameOf file_path
      let step1Call := OutboundCall.api ("GET") ("files.getUploadURLExternal")
        [(("filename"), PVal.s file_name), (("length"), PVal.i env.fileSize)]
      match _make_request env.step1H with
      | .error e => (calls ++ [step1Call], .error (wrapExc (errStr e)))
      | .ok up =>
        let postCall := OutboundCall.filePost up.payload.upload_url file_name
        match env.step2 with
        | .exn m =>
          (calls ++ [step1Call, postCall],
            .error { error := ("파일 업로드 중 네트워크 오류: ") ++ m })
        | .status code =>
          if code ≠ 200 then
            (calls ++ [step1Call, postCall],
              .error (wrapExc (errStr (wrapExc (("HTTP ") ++ toString code)))))
          else
            match channelIdOf channels' with
            | .error desc =>
              (calls ++ [step1Call, postCall], .error (wrapExc desc))
            | .ok channel_id =>
              let complete_data : CompleteData :=
                { file_id := up.payload.file_id,
                  title :=
                    (match title with
                     | some t => if t.isEmpty then file_name else t
                     | none => file_name),
                  channel_id := channel_id,
                  initial_comment :=
                    (match initial_comment with
                     | some c => if c.isEmpty then none else some c
                     | none => none) }
              let completeCall := OutboundCall.completeReq complete_data
              match _make_request env.step3H with
              | .error e =>
                (calls ++ [step1Call, postCall, completeCall],
                  .error (wrapExc (errStr e)))
              | .ok body =>
                (calls ++ [step1Call, postCall, completeCall], .ok body)

end SlackAPIClient

/-! The tool adapter layer (slack_mcp_server.py).  `format_timestamp` converts
a Slack timestamp into a local-zone date string via `datetime.fromtimestamp`;
its output depends on the evaluator's clock zone, so every tool takes it as an
explicit rendering parameter `fmtTs`.  Each tool returns the list of outbound
requests its invocation issued together with the string handed back to the
orchestration host. -/

/-- `format_message_list` (slack_mcp_server.py lines 53-80). -/
def format_message_list (fmtTs : String → String) (messages : List SlackMessage) :
    String :=
  if messages.isEmpty then "메시지가 없습니다."
  else
    String.intercalate ("\n") (messages.map (fun msg =>
      let timestamp := fmtTs msg.timestamp
      let user_display :=
        if optTruthy msg.user_name then msg.user_name.getD ("") else msg.user
      let m0 := ("[") ++ timestamp ++ ("] ") ++ user_display ++ (": ") ++ msg.text
      let m1 := if optTruthy msg.thread_ts then m0 ++ (" (스레드 답글)") else m0
      m1 ++ ("\n→ 타임스탬프: ") ++ msg.timestamp))

/-- `format_channel_list` (lines 83-112); the topic/purpose/member-count lines
are attached only when the field is truthy (non-empty, non-zero). -/
def format_channel_list (channels : List SlackChannel) : String :=
  if channels.isEmpty then "접근 가능한 채널이 없습니다."
  else
    String.intercalate ("\n\n") (channels.map (fun channel =>
      let privacy := if channel.is_private then "비공개" else "공개"
      let membership := if channel.is_member then "멤버" else "비멤버"
      let c0 := ("#") ++ channel.name ++ (" (ID: ") ++ channel.id ++ (") - ")
        ++ privacy ++ (", ") ++ membership
      let c1 := if optTruthy channel.topic
        then c0 ++ ("\n  주제: ") ++ channel.topic.getD ("") else c0
      let c2 := if optTruthy channel.purpose
        then c1 ++ ("\n  목적: ") ++ channel.purpose.getD ("") else c1
      match channel.num_members with
      | some n => if n = 0 then c2 else c2 ++ ("\n  멤버 수: ") ++ toString n ++ ("명")
      | none => c2))

/-- `format_user_list` (lines 115-147). -/
def format_user_list (users : List SlackUser) : String :=
  if users.isEmpty then "사용자가 없습니다."
  else
    String.intercalate ("\n\n") (users.map (fun user =>
      let base := user.real_name ++ (" (@") ++ user.name ++ (") - ID: ") ++ user.id
      let details :=
        (if optTruthy user.email then [("이메일: ") ++ user.email.getD ("")] else [])
        ++ (if user.is_bot then [("봇")] else [])
        ++ (if user.is_admin then [("관리자")] else [])
        ++ (if optTruthy user.status then [("상태: ") ++ user.status.getD ("")] else [])
      if details.isEmpty then base
      else base ++ ("\n  ") ++ String.intercalate (", ") details))

/-- Tool `send_slack_message` (lines 154-183). -/
def send_slack_message (fmtTs : String → String) (channel text : String)
    (h : HTTPResult SendPayload) : List OutboundCall × String :=
  let (call, res) := SlackAPIClient.send_message channel text none h
  ([call],
    match res with
    | .ok result =>
      let message_ts := result.payload.ts.getD ("")
      ("✅ 메시지가 성공적으로 전송되었습니다!\n채널: ") ++ channel
        ++ ("\n메시지: ") ++ text ++ ("\n타임스탬프: ") ++ fmtTs message_ts
    | .error e =>
      ("❌ 메시지 전송 실패: ") ++ e.error ++ ("\n채널: ") ++ channel
        ++ ("\n메시지: ") ++ text)

/-- Tool `get_slack_channels` (lines 186-219). -/
def get_slack_channels (h : HTTPResult (List RawChannel)) :
    List OutboundCall × String :=
  let (call, res) := SlackAPIClient.get_channels true h
  ([call],
    match res with
    | .error e => ("❌ 채널 목록 조회 실패: ") ++ e.error
    | .ok channels =>
      if channels.isEmpty then "접근 가능한 채널이 없습니다."
      else
        let public_channels := channels.filter (fun ch => !ch.is_private)
        let private_channels := channels.filter (fun ch => ch.is_private)
        let r0 := ("📋 총 ") ++ toString channels.length ++ ("개의 채널을 찾았습니다.\n\n")
        let r1 :=
          if !public_channels.isEmpty then
            r0 ++ ("🌐 공개 채널 (") ++ toString public_channels.length ++ ("개):\n")
              ++ format_channel_list public_channels ++ ("\n\n")
          else r0
        if !private_channels.isEmpty then
          r1 ++ ("🔒 비공개 채널 (") ++ toString private_channels.length ++ ("개):\n")
            ++ format_channel_list private_channels
        else r1)

/-- The line-244 sort `messages.sort(key=lambda x: float(x.timestamp))` of the
history tool.  `pyFloat` models the builtin `float()` conversion of the
runtime (`none` meaning it raises `ValueError`); on the first unconvertible
timestamp the sort raises with the exact CPython message, to be caught by the
tool's generic handler. -/
def sortByTs (pyFloat : String → Option Rat) (messages : List SlackMessage) :
    Except String (List SlackMessage) :=
  match messages.mapM (fun m =>
    match pyFloat m.timestamp with
    | none => Except.error (("could not convert string to float: '")
        ++ m.timestamp ++ ("'"))
    | some q => Except.ok (q, m)) with
  | .error d => .error d
  | .ok keyed =>
    .ok ((stableSort (fun a b => decide (a.1 ≤ b.1)) keyed).map (fun p => p.2))

/-- Tool `get_slack_channel_history` (lines 222-254): clamps `limit` into
[1, 100], fetches, reports the empty case, sorts ascending by timestamp
parsed as float, and renders; a `ValueError` from the sort key lands in the
generic `except Exception` rendering. -/
def get_slack_channel_history (pyFloat : String → Option Rat)
    (fmtTs : String → String) (channel_id : String) (limit : Int)
    (h : HTTPResult (List RawMessage)) : List OutboundCall × String :=
  let lim := max 1 (min limit 100)
  let (call, res) := SlackAPIClient.get_channel_history channel_id lim none none h
  ([call],
    match res with
    | .error e =>
      ("❌ 채널 히스토리 조회 실패: ") ++ e.error ++ ("\n채널 ID: ") ++ channel_id
    | .ok messages =>
      if messages.isEmpty then ("채널 ") ++ channel_id ++ ("에 메시지가 없습니다.")
      else
        match sortByTs pyFloat messages with
        | .error d => ("❌ 예상치 못한 오류 발생: ") ++ d
        | .ok sorted =>
          ("📜 채널 ") ++ channel_id ++ ("의 최근 ") ++ toString sorted.length
            ++ ("개 메시지:\n\n") ++ format_message_list fmtTs sorted)

/-- Tool `send_slack_direct_message` (lines 257-292): sends via the two-step
client operation; on success it additionally looks the user up for display,
falling back to the bare id if that lookup fails (bare `except:`). -/
def send_slack_direct_message (fmtTs : String → String) (user_id text : String)
    (hOpen : HTTPResult OpenPayload) (hSend : HTTPResult SendPayload)
    (hUser : HTTPResult RawUser) : List OutboundCall × String :=
  let (calls, res) := SlackAPIClient.send_direct_message user_id text hOpen hSend
  match res with
  | .error e =>
    (calls, ("❌ 다이렉트 메시지 전송 실패: ") ++ e.error ++ ("\n사용자 ID: ")
      ++ user_id ++ ("\n메시지: ") ++ text)
  | .ok result =>
    let message_ts := result.payload.ts.getD ("")
    let (uCall, uRes) := SlackAPIClient.get_user_info user_id hUser
    let user_display :=
      match uRes with
      | .ok ui => ui.real_name ++ (" (@") ++ ui.name ++ (")")
      | .error _ => user_id
    (calls ++ [uCall],
      ("✅ 다이렉트 메시지가 성공적으로 전송되었습니다!\n수신자: ") ++ user_display
        ++ ("\n메시지: ") ++ text ++ ("\n타임스탬프: ") ++ fmtTs message_ts)

/-- Tool `get_slack_users` (lines 300-338): clamps `limit` into [1, 1000] and
renders the user list split into regular and bot users. -/
def get_slack_users (limit : Int) (h : HTTPResult (List RawUser)) :
    List OutboundCall × String :=
  let lim := max 1 (min limit 1000)
  let (call, res) := SlackAPIClient.get_users lim h
  ([call],
    match res with
    | .error e => ("❌ 사용자 목록 조회 실패: ") ++ e.error
    | .ok users =>
      if users.isEmpty then "사용자를 찾을 수 없습니다."
      else
        let regular_users := users.filter (fun u => !u.is_bot)
        let bot_users := users.filter (fun u => u.is_bot)
        let r0 := ("👥 총 ") ++ toString users.length ++ ("명의 사용자를 찾았습니다.\n\n")
        let r1 :=
          if !regular_users.isEmpty then
            r0 ++ ("👤 일반 사용자 (") ++ toString regular_users.length ++ ("명):\n")
              ++ format_user_list regular_users ++ ("\n\n")
          else r0
        if !bot_users.isEmpty then
          r1 ++ ("🤖 봇 사용자 (") ++ toString bot_users.length ++ ("명):\n")
            ++ format_user_list bot_users
        else r1)

/-- Tool `search_slack_messages` (lines 341-380): clamps `count` into
[1, 100] and renders the numbered match list. -/
def search_slack_messages (fmtTs : String → String) (query : String)
    (count : Int) (h : HTTPResult (List RawMatch)) :
    List OutboundCall × String :=
  let cnt := max 1 (min count 100)
  let (call, res) := SlackAPIClient.search_messages query cnt ("timestamp") h
  ([call],
    match res with
    | .error e => ("❌ 메시지 검색 실패: ") ++ e.error ++ ("\n검색어: ") ++ query
    | .ok results =>
      if results.isEmpty then
        ("'") ++ query ++ ("' 키워드로 검색된 메시지가 없습니다.")
      else
        let formatted_results := results.enum.map (fun p =>
          toString (p.1 + 1) ++ (". [") ++ fmtTs (p.2.ts.getD (""))
            ++ ("] #") ++ p.2.channelName.getD ("unknown") ++ (" - @")
            ++ p.2.userName.getD ("unknown") ++ (":\n   ") ++ p.2.text.getD (""))
        ("🔍 '") ++ query ++ ("' 검색 결과 (") ++ toString results.length
          ++ ("개):\n\n") ++ String.intercalate ("\n\n") formatted_results)

/-- Tool `upload_slack_file` (lines 383-438): checks the local path first and
returns without any client call when it is missing; a single user id (leading
`U`, no comma) is forwarded to the client as a bare string, anything else as
the comma-split, stripped list. -/
def upload_slack_file (channels file_path : String)
    (title initial_comment : Option String)
    (env : SlackAPIClient.UploadEnv) : List OutboundCall × String :=
  if env.fsExists file_path = false then
    ([], ("❌ 파일을 찾을 수 없습니다: ") ++ file_path)
  else
    let channel_param :=
      if pyStartsWith channels ("U") && !(pyContainsChar channels ',') then
        SlackAPIClient.ChannelsArg.str channels
      else
        SlackAPIClient.ChannelsArg.list ((pySplitComma channels).map pyTrim)
    match SlackAPIClient.upload_file channel_param file_path title
        initial_comment env with
    | (calls, .error e) =>
      (calls, ("❌ 파일 업로드 실패: ") ++ e.error ++ ("\n파일: ") ++ file_path
        ++ ("\n채널: ") ++ channels)
    | (calls, .ok result) =>
      let file_info :=
        match result.payload.files with
        | some (fi :: _) => fi
        | _ => result.payload.file.getD {}
      let file_name := file_info.name.getD (SlackAPIClient.basenameOf file_path)
      let file_size := file_info.size.getD 0
      (calls,
        ("✅ 파일이 성공적으로 업로드되었습니다!\n파일명: ") ++ file_name
          ++ ("\n크기: ") ++ toString file_size ++ (" bytes\n채널: ") ++ channels
          ++ ("\n제목: ")
          ++ (if optTruthy title then title.getD ("") else "없음")
          ++ ("\n코멘트: ")
          ++ (if optTruthy initial_comment then initial_comment.getD ("") else "없음"))

/-- Tool `add_slack_reaction` (lines 441-471): strips colons from both ends of
the emoji argument (line 456) before handing it to the client; both renderings
use the stripped name. -/
def add_slack_reaction (fmtTs : String → String)
    (channel timestamp emoji : String) (h : HTTPResult Unit) :
    List OutboundCall × String :=
  let emoji' := pyStrip ':' emoji
  let (call, res) := SlackAPIClient.add_reaction channel timestamp emoji' h
  ([call],
    match res with
    | .ok _ =>
      ("✅ 이모지 반응이 성공적으로 추가되었습니다!\n채널: ") ++ channel
        ++ ("\n메시지 시간: ") ++ fmtTs timestamp ++ ("\n이모지: :") ++ emoji' ++ (":")
    | .error e =>
      ("❌ 이모지 반응 추가 실패: ") ++ e.error ++ ("\n채널: ") ++ channel
        ++ ("\n타임스탬프: ") ++ timestamp ++ ("\n이모지: ") ++ emoji')

/-- The line-493 slice `replies[1:] if len(replies) > 1 else []` of the
thread-replies tool. -/
def replies_only (replies : List SlackMessage) : List SlackMessage :=
  if replies.length > 1 then replies.drop 1 else []

/-- Tool `get_slack_thread_replies` (lines 474-510): fetches the full thread
(parent included) and renders only the slice past the first element. -/
def get_slack_thread_replies (fmtTs : String → String)
    (channel thread_ts : String) (h : HTTPResult (List RawMessage)) :
    List OutboundCall × String :=
  let (call, res) := SlackAPIClient.get_thread_replies channel thread_ts h
  ([call],
    match res with
    | .error e =>
      ("❌ 스레드 답글 조회 실패: ") ++ e.error ++ ("\n채널: ") ++ channel
        ++ ("\n스레드: ") ++ thread_ts
    | .ok replies =>
      if replies.isEmpty then
        ("스레드에 답글이 없습니다.\n채널: ") ++ channel ++ ("\n스레드: ")
          ++ fmtTs thread_ts
      else
        let thread_replies := replies_only replies
        ("🧵 스레드 답글 (") ++ toString thread_replies.length
          ++ ("개):\n원본 메시지 시간: ") ++ fmtTs thread_ts ++ ("\n\n")
          ++ (if !thread_replies.isEmpty then format_message_list fmtTs thread_replies
              else "답글이 없습니다."))

/-- Tool `send_slack_thread_reply` (lines 513-543). -/
def send_slack_thread_reply (fmtTs : String → String)
    (channel thread_ts text : String) (h : HTTPResult SendPayload) :
    List OutboundCall × String :=
  let (call, res) := SlackAPIClient.send_message channel text (some thread_ts) h
  ([call],
    match res with
    | .ok result =>
      let message_ts := result.payload.ts.getD ("")
      ("✅ 스레드 답글이 성공적으로 전송되었습니다!\n채널: ") ++ channel
        ++ ("\n원본 메시지: ") ++ fmtTs thread_ts ++ ("\n답글: ") ++ text
        ++ ("\n답글 시간: ") ++ fmtTs message_ts
    | .error e =>
      ("❌ 스레드 답글 전송 실패: ") ++ e.error ++ ("\n채널: ") ++ channel
        ++ ("\n스레드: ") ++ thread_ts ++ ("\n답글: ") ++ text)

/-- Tool `test_slack_connection` (lines 546-571); `nowStr` stands for the
`datetime.now()` rendering of the success line. -/
def test_slack_connection (nowStr : String) (h : HTTPResult AuthPayload) :
    List OutboundCall × String :=
  let (call, res) := SlackAPIClient.test_connection h
  ([call],
    match res with
    | .ok result =>
      ("✅ Slack API 연결 성공!\n팀: ") ++ result.payload.team.getD ("Unknown")
        ++ (" (ID: ") ++ result.payload.team_id.getD ("Unknown")
        ++ (")\n봇 사용자: ") ++ result.payload.user.getD ("Unknown")
        ++ (" (ID: ") ++ result.payload.user_id.getD ("Unknown")
        ++ (")\n연결 시간: ") ++ nowStr
    | .error e =>
      ("❌ Slack API 연결 실패: ") ++ e.error ++ ("\n토큰을 확인해주세요."))

/-! Environment constructors used by the theorems: concrete families of HTTP
outcomes. -/

/-- A delivered 200 response whose body decodes with a false success flag and
the given error tag: the remote-error case of `_make_request`. -/
def remoteErr (tag : String) (p : α) : HTTPResult α :=
  .response 200 ("") (.ok { ok := false, error := some tag, payload := p })

/-- A network-level exception thrown mid-request. -/
def netFail (msg : String) : HTTPResult α := .netExn msg

/-- A delivered 200 response that decodes successfully with a true flag. -/
def okEnv (p : α) : HTTPResult α :=
  .response 200 ("") (.ok { ok := true, payload := p })

/-- A delivered response (status below 400) whose body is not valid JSON. -/
def badJson (status : Nat) (decodeMsg : String) : HTTPResult α :=
  .response status ("") (.error decodeMsg)

/-! Helper lemmas about the substring predicate. -/

theorem listStartsWith_self_append (p rest : List Char) :
    listStartsWith p (p ++ rest) = true := by
  induction p with
  | nil => rfl
  | cons x xs ih => simp [listStartsWith, ih]

theorem listHasSub_append (a pat b : List Char) :
    listHasSub pat (a ++ (pat ++ b)) = true := by
  induction a with
  | nil =>
    cases pat with
    | nil => cases b <;> rfl
    | cons x xs =>
      show (listStartsWith (x :: xs) ((x :: xs) ++ b)
        || listHasSub (x :: xs) (xs ++ b)) = true
      rw [listStartsWith_self_append, Bool.true_or]
  | cons x xs ih =>
    show (listStartsWith pat (x :: (xs ++ (pat ++ b)))
      || listHasSub pat (xs ++ (pat ++ b))) = true
    rw [ih, Bool.or_true]

/-- A string built around `tag` contains `tag` as a substring. -/
theorem hasSubstr_append (pre tag post : String) :
    hasSubstr (pre ++ tag ++ post) tag = true := by
  unfold hasSubstr
  have h : (pre ++ tag ++ post).data = pre.data ++ (tag.data ++ post.data) := by
    show (pre.data ++ tag.data) ++ post.data = pre.data ++ (tag.data ++ post.data)
    exact List.append_assoc pre.data tag.data post.data
  rw [h]
  exact listHasSub_append pre.data tag.data post.data

/-- A string ending in `tag` contains `tag` as a substring. -/
theorem hasSubstr_append_left (pre tag : String) :
    hasSubstr (pre ++ tag) tag = true := by
  unfold hasSubstr
  have h : (pre ++ tag).data = pre.data ++ (tag.data ++ []) := by
    rw [List.append_nil]; rfl
  rw [h]
  exact listHasSub_append pre.data tag.data []

/-- Two strings with distinct first characters differ (used to separate the
decode-error rendering from the network-error rendering). -/
theorem decode_ne_network (d n : String) :
    ("JSON decode error: ") ++ d ≠ ("Network error: ") ++ n := fun hEq =>
  absurd (congrArg (fun s : String => s.data.head?) hEq)
    (show ¬(some 'J' = some 'N') by decide)

/-! Claim theorems. -/

/-- C2: for every delivered response whose body is not valid JSON (and whose
status passed `raise_for_status`), `_make_request` reports a `SlackAPIError`
of the `JSON decode error: ...` form, and that form is distinct from the
`Network error: ...` form used for transport failures. -/
theorem c2_decode_error_kind (α : Type) (status : Nat)
    (httpErrMsg decodeMsg : String) (h : status < 400) :
    SlackAPIClient._make_request
      (HTTPResult.response status httpErrMsg (Except.error decodeMsg) : HTTPResult α)
      = Except.error { error := ("JSON decode error: ") ++ decodeMsg } ∧
    ∀ d n : String, ("JSON decode error: ") ++ d ≠ ("Network error: ") ++ n := by
  constructor
  · simp only [SlackAPIClient._make_request]
    rw [if_neg (show ¬(400 ≤ status) by omega)]
  · exact decode_ne_network

/-- Witness for C2 at a concrete undecodable 200 response. -/
theorem c2_decode_error_kind_witness :
    (200 : Nat) < 400 ∧
    SlackAPIClient._make_request
      (HTTPResult.response 200 ("") (Except.error ("Expecting value")) : HTTPResult Unit)
      = Except.error { error := ("JSON decode error: ") ++ ("Expecting value") } :=
  ⟨by decide, (c2_decode_error_kind Unit 200 ("") ("Expecting value") (by decide)).1⟩

/-- C3: for every response payload, `get_channel_history` returns exactly the
non-noise entries (subtype not bot_message/channel_join/channel_leave),
normalized in order, and hence every returned message originates from a raw
entry whose subtype is not noise. -/
theorem c3_history_filters_noise (channel_id : String) (limit : Int)
    (oldest latest : Option String) (raws : List RawMessage) :
    (SlackAPIClient.get_channel_history channel_id limit oldest latest
        (okEnv raws)).2
      = Except.ok ((raws.filter (fun m => !(SlackAPIClient.isNoise m.subtype))).map
          (SlackAPIClient.rawToHistoryMessage channel_id)) ∧
    ∀ m ∈ (raws.filter (fun m => !(SlackAPIClient.isNoise m.subtype))).map
          (SlackAPIClient.rawToHistoryMessage channel_id),
      ∃ r ∈ raws, SlackAPIClient.isNoise r.subtype = false ∧
        m = SlackAPIClient.rawToHistoryMessage channel_id r := by
  constructor
  · rfl
  · intro m hm
    obtain ⟨r, hr, heq⟩ := List.mem_map.mp hm
    obtain ⟨hraw, hnoise⟩ := List.mem_filter.mp hr
    exact ⟨r, hraw, by simpa using hnoise, heq.symm⟩

/-- Witness for C3 on a mixed response containing bot, join, leave and
ordinary entries. -/
theorem c3_history_filters_noise_witness :
    ∃ r ∈ [({ subtype := some ("bot_message"), ts := some ("1.0") } : RawMessage),
           ({ ts := some ("2.0"), text := some ("hi") } : RawMessage),
           ({ subtype := some ("channel_join") } : RawMessage),
           ({ subtype := some ("channel_leave") } : RawMessage)],
      SlackAPIClient.isNoise r.subtype = false ∧
        SlackAPIClient.rawToHistoryMessage ("C1")
            ({ ts := some ("2.0"), text := some ("hi") } : RawMessage)
          = SlackAPIClient.rawToHistoryMessage ("C1") r :=
  (c3_history_filters_noise ("C1") 10 none none
    [{ subtype := some ("bot_message"), ts := some ("1.0") },
     { ts := some ("2.0"), text := some ("hi") },
     { subtype := some ("channel_join") },
     { subtype := some ("channel_leave") }]).2
    (SlackAPIClient.rawToHistoryMessage ("C1")
      { ts := some ("2.0"), text := some ("hi") }) (by decide)

/-- C4: on a non-empty raw thread response the client returns the full
normalized sequence with the raw first element (the parent) as element 0, and
the adapter's replies-only slice is exactly the result with that first element
removed. -/
theorem c4_thread_parent_and_slice (channel thread_ts : String)
    (r : RawMessage) (rest : List RawMessage) :
    (SlackAPIClient.get_thread_replies channel thread_ts (okEnv (r :: rest))).2
      = Except.ok (SlackAPIClient.rawToReplyMessage channel r
          :: rest.map (SlackAPIClient.rawToReplyMessage channel)) ∧
    (∀ replies : List SlackMessage, replies_only replies = replies.drop 1) ∧
    replies_only (SlackAPIClient.rawToReplyMessage channel r
        :: rest.map (SlackAPIClient.rawToReplyMessage channel))
      = rest.map (SlackAPIClient.rawToReplyMessage channel) := by
  have hgen : ∀ replies : List SlackMessage, replies_only replies = replies.drop 1 := by
    intro replies
    cases replies with
    | nil => rfl
    | cons x xs =>
      cases xs with
      | nil => rfl
      | cons y ys => simp [replies_only]
  exact ⟨rfl, hgen, (hgen _).trans rfl⟩

/-- C5: for every integer limit/count argument the adapter clamps into
[1, cap] (cap 100 for channel-history, 1000 for list-users, 100 for
search-messages) and the clamped value is exactly the `limit`/`count` value of
the one outbound query the tool issues. -/
theorem c5_limits_clamped (limit count : Int) :
    (1 ≤ max 1 (min limit 100) ∧ max 1 (min limit 100) ≤ 100 ∧
      ∀ (pf : String → Option Rat) (fmtTs : String → String) (ch : String)
        (h : HTTPResult (List RawMessage)),
        (get_slack_channel_history pf fmtTs ch limit h).1
          = [OutboundCall.api ("GET") ("conversations.history")
              [(("channel"), PVal.s ch),
               (("limit"), PVal.i (max 1 (min limit 100)))]]) ∧
    (1 ≤ max 1 (min limit 1000) ∧ max 1 (min limit 1000) ≤ 1000 ∧
      ∀ h : HTTPResult (List RawUser),
        (get_slack_users limit h).1
          = [OutboundCall.api ("GET") ("users.list")
              [(("limit"), PVal.i (max 1 (min limit 1000)))]]) ∧
    (1 ≤ max 1 (min count 100) ∧ max 1 (min count 100) ≤ 100 ∧
      ∀ (fmtTs : String → String) (q : String) (h : HTTPResult (List RawMatch)),
        (search_slack_messages fmtTs q count h).1
          = [OutboundCall.api ("GET") ("search.messages")
              [(("query"), PVal.s q),
               (("count"), PVal.i (max 1 (min count 100))),
               (("sort"), PVal.s ("timestamp"))]]) := by
  have h100 : min (max 1 (min limit 100)) 100 = max 1 (min limit 100) :=
    min_eq_left (max_le (by norm_num) (min_le_right limit 100))
  have h1000 : min (max 1 (min limit 1000)) 1000 = max 1 (min limit 1000) :=
    min_eq_left (max_le (by norm_num) (min_le_right limit 1000))
  have hc100 : min (max 1 (min count 100)) 100 = max 1 (min count 100) :=
    min_eq_left (max_le (by norm_num) (min_le_right count 100))
  refine ⟨⟨le_max_left 1 _, max_le (by norm_num) (min_le_right limit 100), ?_⟩,
    ⟨le_max_left 1 _, max_le (by norm_num) (min_le_right limit 1000), ?_⟩,
    ⟨le_max_left 1 _, max_le (by norm_num) (min_le_right count 100), ?_⟩⟩
  · intro pf fmtTs ch h
    simp [get_slack_channel_history, SlackAPIClient.get_channel_history,
      SlackAPIClient.get_channel_history_params, h100]
  · intro h
    simp [get_slack_users, SlackAPIClient.get_users,
      SlackAPIClient.get_users_params, h1000]
  · intro fmtTs q h
    simp [search_slack_messages, SlackAPIClient.search_messages,
      SlackAPIClient.search_messages_params, hc100]

/-- C6: a `missing_scope` remote error is rewritten by list-channels and
fetch-channel-history into scope guidance naming the required scope
(`channels:read` and `channels:history` respectively), that guidance reaches
the adapter's rendered failure string, and every tag not containing
`missing_scope` is rendered raw instead. -/
theorem c6_missing_scope_guidance :
    (∀ p : List RawChannel,
      (get_slack_channels (remoteErr ("missing_scope") p)).2
        = ("❌ 채널 목록 조회 실패: ")
          ++ ("채널 목록 조회 권한이 없습니다. 'channels:read' 스코프가 필요합니다.")) ∧
    hasSubstr (("❌ 채널 목록 조회 실패: ")
        ++ ("채널 목록 조회 권한이 없습니다. 'channels:read' 스코프가 필요합니다."))
      ("channels:read") = true ∧
    (∀ tag : String, hasSubstr tag ("missing_scope") = false →
      ∀ p : List RawChannel,
        (get_slack_channels (remoteErr tag p)).2
          = ("❌ 채널 목록 조회 실패: ") ++ tag) ∧
    (∀ (pf : String → Option Rat) (fmtTs : String → String) (ch : String)
        (limit : Int) (p : List RawMessage),
      (get_slack_channel_history pf fmtTs ch limit (remoteErr ("missing_scope") p)).2
        = ("❌ 채널 히스토리 조회 실패: ")
          ++ ("채널 히스토리 조회 권한이 없습니다. 'channels:history' 스코프가 필요합니다.")
          ++ ("\n채널 ID: ") ++ ch) ∧
    hasSubstr (("❌ 채널 히스토리 조회 실패: ")
        ++ ("채널 히스토리 조회 권한이 없습니다. 'channels:history' 스코프가 필요합니다."))
      ("channels:history") = true ∧
    (∀ tag : String, hasSubstr tag ("missing_scope") = false →
      ∀ (pf : String → Option Rat) (fmtTs : String → String) (ch : String)
        (limit : Int) (p : List RawMessage),
        (get_slack_channel_history pf fmtTs ch limit (remoteErr tag p)).2
          = ("❌ 채널 히스토리 조회 실패: ") ++ tag ++ ("\n채널 ID: ") ++ ch) := by
  refine ⟨fun p => rfl, by decide, ?_, fun pf fmtTs ch limit p => rfl, by decide, ?_⟩
  · intro tag htag p
    simp [get_slack_channels, SlackAPIClient.get_channels,
      SlackAPIClient._make_request, remoteErr, htag]
  · intro tag htag pf fmtTs ch limit p
    simp [get_slack_channel_history, SlackAPIClient.get_channel_history,
      SlackAPIClient._make_request, remoteErr, htag]

/-- Witness for C6: the raw-tag rendering at the concrete tag invalid_auth. -/
theorem c6_missing_scope_guidance_witness :
    (get_slack_channels (remoteErr ("invalid_auth") [])).2
      = ("❌ 채널 목록 조회 실패: ") ++ ("invalid_auth") ∧
    (get_slack_channel_history (fun _ => none) (fun s => s) ("C1") 10
        (remoteErr ("invalid_auth") [])).2
      = ("❌ 채널 히스토리 조회 실패: ") ++ ("invalid_auth")
        ++ ("\n채널 ID: ") ++ ("C1") :=
  ⟨c6_missing_scope_guidance.2.2.1 ("invalid_auth") (by decide) [],
   c6_missing_scope_guidance.2.2.2.2.2 ("invalid_auth") (by decide)
     (fun _ => none) (fun s => s) ("C1") 10 []⟩

/-- C7 as stated is false: the adapter strips colons from the emoji tag.  The
client does pass its argument verbatim, and the value reaching the outbound
reactions.add request is exactly the colon-stripped tag. -/
theorem c7_emoji_stripped_then_verbatim (fmtTs : String → String)
    (channel timestamp name emoji : String) (h : HTTPResult Unit) :
    (SlackAPIClient.add_reaction channel timestamp name h).1
      = OutboundCall.api ("POST") ("reactions.add")
          [(("channel"), PVal.s channel), (("timestamp"), PVal.s timestamp),
           (("name"), PVal.s name)] ∧
    (add_slack_reaction fmtTs channel timestamp emoji h).1
      = [OutboundCall.api ("POST") ("reactions.add")
          [(("channel"), PVal.s channel), (("timestamp"), PVal.s timestamp),
           (("name"), PVal.s (pyStrip ':' emoji))]] :=
  ⟨rfl, rfl⟩

/-- Counterexample to C7: for the input tag `:smile:` the adapter's outbound
request carries `smile`, not the supplied tag — the adapter does modify it. -/
theorem c7_counterexample :
    (add_slack_reaction (fun s => s) ("C1") ("1.0") (":smile:")
        (okEnv (() : Unit))).1
      = [OutboundCall.api ("POST") ("reactions.add")
          [(("channel"), PVal.s ("C1")), (("timestamp"), PVal.s ("1.0")),
           (("name"), PVal.s ("smile"))]] ∧
    ("smile") ≠ (":smile:") := ⟨rfl, by decide⟩

/-- C8: whenever the local file path does not exist, the upload tool returns
the missing-file failure string (which contains the path) and issues no
outbound request at all. -/
theorem c8_upload_missing_file (channels file_path : String)
    (title initial_comment : Option String) (env : SlackAPIClient.UploadEnv)
    (h : env.fsExists file_path = false) :
    upload_slack_file channels file_path title initial_comment env
      = ([], ("❌ 파일을 찾을 수 없습니다: ") ++ file_path) ∧
    hasSubstr (("❌ 파일을 찾을 수 없습니다: ") ++ file_path) file_path = true := by
  constructor
  · unfold upload_slack_file
    rw [if_pos h]
  · exact hasSubstr_append_left _ _

/-- Witness for C8 at a concrete absent path. -/
theorem c8_upload_missing_file_witness :
    upload_slack_file ("C1") ("/tmp/absent.txt") none none
        { fsExists := fun _ => false, fileSize := 0, listChannelsH := okEnv [],
          step1H := okEnv { upload_url := ("u"), file_id := ("F") },
          step2 := .status 200, step3H := okEnv {} }
      = ([], ("❌ 파일을 찾을 수 없습니다: ") ++ ("/tmp/absent.txt")) :=
  (c8_upload_missing_file ("C1") ("/tmp/absent.txt") none none
    { fsExists := fun _ => false, fileSize := 0, listChannelsH := okEnv [],
      step1H := okEnv { upload_url := ("u"), file_id := ("F") },
      step2 := .status 200, step3H := okEnv {} } rfl).1

/-- C9 (amended): in upload step two only HTTP status exactly 200 is accepted;
every other status — other 2xx statuses included — aborts the sequence with a
reported failure and the finalize request is never issued, while status 200
proceeds to the finalize step. -/
theorem c9_step2_requires_exactly_200 (fp : String)
    (title comment : Option String) (sz : Int)
    (lch : HTTPResult (List RawChannel)) (tk : UploadTicket) (code : Nat)
    (s3 : HTTPResult CompletePayload) (h : code ≠ 200) :
    SlackAPIClient.upload_file (.str ("C1")) fp title comment
        { fsExists := fun _ => true, fileSize := sz, listChannelsH := lch,
          step1H := okEnv tk, step2 := .status code, step3H := s3 }
      = ([OutboundCall.api ("GET") ("files.getUploadURLExternal")
            [(("filename"), PVal.s (SlackAPIClient.basenameOf fp)),
             (("length"), PVal.i sz)],
          OutboundCall.filePost tk.upload_url (SlackAPIClient.basenameOf fp)],
         Except.error { error := ("파일 업로드 실패: ") ++ (("Slack API Error: ")
           ++ (("파일 업로드 실패: ") ++ (("HTTP ") ++ toString code))) }) ∧
    (∀ cp : CompletePayload,
      SlackAPIClient.upload_file (.str ("C1")) fp title comment
          { fsExists := fun _ => true, fileSize := sz, listChannelsH := lch,
            step1H := okEnv tk, step2 := .status 200, step3H := okEnv cp }
        = ([OutboundCall.api ("GET") ("files.getUploadURLExternal")
              [(("filename"), PVal.s (SlackAPIClient.basenameOf fp)),
               (("length"), PVal.i sz)],
            OutboundCall.filePost tk.upload_url (SlackAPIClient.basenameOf fp),
            OutboundCall.completeReq
              { file_id := tk.file_id,
                title :=
                  (match title with
                   | some t => if t.isEmpty then SlackAPIClient.basenameOf fp else t
                   | none => SlackAPIClient.basenameOf fp),
                channel_id := ("C1"),
                initial_comment :=
                  (match comment with
                   | some c => if c.isEmpty then none else some c
                   | none => none) }],
           Except.ok { ok := true, payload := cp })) := by
  have hc : pyStartsWith ("C1") ("C") = true := rfl
  constructor
  · simp [SlackAPIClient.upload_file, SlackAPIClient._make_request, okEnv,
      SlackAPIClient.wrapExc, errStr, hc, h]
  · intro cp
    simp [SlackAPIClient.upload_file, SlackAPIClient._make_request, okEnv,
      SlackAPIClient.channelIdOf, hc]

/-- Witness for C9 (amended) at the concrete non-200 status 404. -/
theorem c9_step2_requires_exactly_200_witness :
    SlackAPIClient.upload_file (.str ("C1")) ("/tmp/f") none none
        { fsExists := fun _ => true, fileSize := 1, listChannelsH := okEnv [],
          step1H := okEnv { upload_url := ("u"), file_id := ("F") },
          step2 := .status 404, step3H := okEnv {} }
      = ([OutboundCall.api ("GET") ("files.getUploadURLExternal")
            [(("filename"), PVal.s (SlackAPIClient.basenameOf ("/tmp/f"))),
             (("length"), PVal.i 1)],
          OutboundCall.filePost ("u") (SlackAPIClient.basenameOf ("/tmp/f"))],
         Except.error { error := ("파일 업로드 실패: ") ++ (("Slack API Error: ")
           ++ (("파일 업로드 실패: ") ++ (("HTTP ") ++ toString (404 : Nat)))) }) :=
  (c9_step2_requires_exactly_200 ("/tmp/f") none none 1 (okEnv [])
    { upload_url := ("u"), file_id := ("F") } 404 (okEnv {}) (by decide)).1

/-- Counterexample to C9 as stated: 201 is a 2xx status, yet upload step two
rejects it — the sequence aborts with a failure and no finalize request is
issued. -/
theorem c9_counterexample :
    ((200 ≤ 201 ∧ 201 < 300) ∧
      SlackAPIClient.upload_file (.str ("C1")) ("/tmp/f") none none
          { fsExists := fun _ => true, fileSize := 1, listChannelsH := okEnv [],
            step1H := okEnv { upload_url := ("u"), file_id := ("F") },
            step2 := .status 201, step3H := okEnv {} }
        = ([OutboundCall.api ("GET") ("files.getUploadURLExternal")
              [(("filename"), PVal.s ("f")), (("length"), PVal.i 1)],
            OutboundCall.filePost ("u") ("f")],
           Except.error { error :=
             ("파일 업로드 실패: Slack API Error: 파일 업로드 실패: HTTP 201") })) := by
  refine ⟨⟨by norm_num, by norm_num⟩, ?_⟩
  rfl

/-- C10: a single user id supplied as the upload tool's channels argument
(leading `U`, no comma) is forwarded to the client as a bare string; the
client treats any string not starting with `C` as a channel name, resolves it
against list-channels, and when no channel carries that name the whole
operation fails with the channel-not-found error after only the
conversations.list request. -/
theorem c10_dm_upload_treated_as_channel_name (uid file_path : String)
    (title initial_comment : Option String) (sz : Int)
    (rawChans : List RawChannel) (s1 : HTTPResult UploadTicket)
    (s2 : SlackAPIClient.Step2Result) (s3 : HTTPResult CompletePayload)
    (hU : pyStartsWith uid ("U") = true)
    (hComma : pyContainsChar uid ',' = false)
    (hC : pyStartsWith uid ("C") = false)
    (hFind : (rawChans.map SlackAPIClient.rawToChannel).find?
        (fun c => c.name == uid) = none) :
    upload_slack_file uid file_path title initial_comment
        { fsExists := fun _ => true, fileSize := sz,
          listChannelsH := okEnv rawChans, step1H := s1, step2 := s2,
          step3H := s3 }
      = ([OutboundCall.api ("GET") ("conversations.list")
            (SlackAPIClient.get_channels_params true)],
         ("❌ 파일 업로드 실패: ") ++ (("파일 업로드 실패: ")
           ++ (("Slack API Error: ") ++ (("채널을 찾을 수 없습니다: ") ++ uid)))
           ++ ("\n파일: ") ++ file_path ++ ("\n채널: ") ++ uid) := by
  simp [upload_slack_file, SlackAPIClient.upload_file,
    SlackAPIClient.get_channels, SlackAPIClient._make_request, okEnv,
    SlackAPIClient.wrapExc, errStr, hU, hComma, hC, hFind]

/-- Witness for C10 at the concrete user id U12345 and an empty channel
list. -/
theorem c10_dm_upload_treated_as_channel_name_witness :
    upload_slack_file ("U12345") ("/tmp/f") none none
        { fsExists := fun _ => true, fileSize := 1, listChannelsH := okEnv [],
          step1H := okEnv { upload_url := ("u"), file_id := ("F") },
          step2 := .status 200, step3H := okEnv {} }
      = ([OutboundCall.api ("GET") ("conversations.list")
            (SlackAPIClient.get_channels_params true)],
         ("❌ 파일 업로드 실패: ") ++ (("파일 업로드 실패: ")
           ++ (("Slack API Error: ") ++ (("채널을 찾을 수 없습니다: ") ++ ("U12345"))))
           ++ ("\n파일: ") ++ ("/tmp/f") ++ ("\n채널: ") ++ ("U12345")) :=
  c10_dm_upload_treated_as_channel_name ("U12345") ("/tmp/f") none none 1 []
    (okEnv { upload_url := ("u"), file_id := ("F") }) (.status 200) (okEnv {})
    (by decide) (by decide) (by decide) rfl

/-- C1 (amended): every tool procedure returns a string for every client
fault — every typed remote error and every network-level exception thrown
mid-request is caught and rendered as a failure string embedding the error
tag (possibly after the documented scope rewrites) or the fault description;
an unexpected non-client exception (the history tool's sort-key `ValueError`)
lands in the generic rendering with the fault description.  Nothing
propagates.  Not every tool embeds all its original call parameters: the
typed-failure renderings of list-users and search omit their numeric
arguments, and the generic rendering embeds only the description. -/
theorem c1_tool_boundary_renders_all_faults :
    (∀ (fmtTs : String → String) (ch tx tag : String) (p : SendPayload),
      (send_slack_message fmtTs ch tx (remoteErr tag p)).2
        = ("❌ 메시지 전송 실패: ") ++ tag ++ ("\n채널: ") ++ ch
          ++ ("\n메시지: ") ++ tx) ∧
    (∀ (fmtTs : String → String) (ch tx m : String),
      (send_slack_message fmtTs ch tx (netFail m)).2
        = ("❌ 메시지 전송 실패: ") ++ (("Network error: ") ++ m)
          ++ ("\n채널: ") ++ ch ++ ("\n메시지: ") ++ tx) ∧
    (∀ (tag : String) (p : List RawChannel),
      (get_slack_channels (remoteErr tag p)).2
        = ("❌ 채널 목록 조회 실패: ")
          ++ (if hasSubstr tag ("missing_scope")
              then "채널 목록 조회 권한이 없습니다. 'channels:read' 스코프가 필요합니다."
              else tag)) ∧
    (∀ m : String,
      (get_slack_channels (netFail m)).2
        = ("❌ 채널 목록 조회 실패: ")
          ++ (if hasSubstr (("Network error: ") ++ m) ("missing_scope")
              then "채널 목록 조회 권한이 없습니다. 'channels:read' 스코프가 필요합니다."
              else ("Network error: ") ++ m)) ∧
    (∀ (pf : String → Option Rat) (fmtTs : String → String) (ch : String)
        (lim : Int) (tag : String) (p : List RawMessage),
      (get_slack_channel_history pf fmtTs ch lim (remoteErr tag p)).2
        = ("❌ 채널 히스토리 조회 실패: ")
          ++ (if hasSubstr tag ("missing_scope")
              then "채널 히스토리 조회 권한이 없습니다. 'channels:history' 스코프가 필요합니다."
              else tag)
          ++ ("\n채널 ID: ") ++ ch) ∧
    (∀ (pf : String → Option Rat) (fmtTs : String → String) (ch : String)
        (lim : Int) (m : String),
      (get_slack_channel_history pf fmtTs ch lim (netFail m)).2
        = ("❌ 채널 히스토리 조회 실패: ")
          ++ (if hasSubstr (("Network error: ") ++ m) ("missing_scope")
              then "채널 히스토리 조회 권한이 없습니다. 'channels:history' 스코프가 필요합니다."
              else ("Network error: ") ++ m)
          ++ ("\n채널 ID: ") ++ ch) ∧
    (∀ (fmtTs : String → String) (ch : String) (lim : Int) (ts txt : String),
      (get_slack_channel_history (fun _ => none) fmtTs ch lim
          (okEnv [{ ts := some ts, text := some txt }])).2
        = ("❌ 예상치 못한 오류 발생: ")
          ++ (("could not convert string to float: '") ++ ts ++ ("'"))) ∧
    (∀ (fmtTs : String → String) (uid tx tag : String) (p : OpenPayload)
        (hSend : HTTPResult SendPayload) (hUser : HTTPResult RawUser),
      (send_slack_direct_message fmtTs uid tx (remoteErr tag p) hSend hUser).2
        = ("❌ 다이렉트 메시지 전송 실패: ") ++ tag ++ ("\n사용자 ID: ") ++ uid
          ++ ("\n메시지: ") ++ tx) ∧
    (∀ (fmtTs : String → String) (uid tx cid tag : String) (p : SendPayload)
        (hUser : HTTPResult RawUser),
      (send_slack_direct_message fmtTs uid tx (okEnv { channel_id := cid })
          (remoteErr tag p) hUser).2
        = ("❌ 다이렉트 메시지 전송 실패: ") ++ tag ++ ("\n사용자 ID: ") ++ uid
          ++ ("\n메시지: ") ++ tx) ∧
    (∀ (fmtTs : String → String) (uid tx m : String)
        (hSend : HTTPResult SendPayload) (hUser : HTTPResult RawUser),
      (send_slack_direct_message fmtTs uid tx (netFail m) hSend hUser).2
        = ("❌ 다이렉트 메시지 전송 실패: ") ++ (("Network error: ") ++ m)
          ++ ("\n사용자 ID: ") ++ uid ++ ("\n메시지: ") ++ tx) ∧
    (∀ (lim : Int) (tag : String) (p : List RawUser),
      (get_slack_users lim (remoteErr tag p)).2
        = ("❌ 사용자 목록 조회 실패: ") ++ tag) ∧
    (∀ (lim : Int) (m : String),
      (get_slack_users lim (netFail m)).2
        = ("❌ 사용자 목록 조회 실패: ") ++ (("Network error: ") ++ m)) ∧
    (∀ (fmtTs : String → String) (q : String) (cnt : Int) (tag : String)
        (p : List RawMatch),
      (search_slack_messages fmtTs q cnt (remoteErr tag p)).2
        = ("❌ 메시지 검색 실패: ")
          ++ (if tag = ("not_allowed_token_type") ∨ tag = ("missing_scope")
              then ("메시지 검색 권한이 없습니다. Slack 앱의 OAuth 스코프에 'search:read'를 추가해주세요. 현재 오류: ") ++ tag
              else tag)
          ++ ("\n검색어: ") ++ q) ∧
    (∀ (fmtTs : String → String) (q : String) (cnt : Int) (m : String),
      (search_slack_messages fmtTs q cnt (netFail m)).2
        = ("❌ 메시지 검색 실패: ")
          ++ (if ("Network error: ") ++ m = ("not_allowed_token_type")
                ∨ ("Network error: ") ++ m = ("missing_scope")
              then ("메시지 검색 권한이 없습니다. Slack 앱의 OAuth 스코프에 'search:read'를 추가해주세요. 현재 오류: ") ++ (("Network error: ") ++ m)
              else ("Network error: ") ++ m)
          ++ ("\n검색어: ") ++ q) ∧
    (∀ (fp tag : String) (title comment : Option String) (sz : Int)
        (lch : HTTPResult (List RawChannel)) (tk : UploadTicket)
        (s2 : SlackAPIClient.Step2Result) (s3 : HTTPResult CompletePayload),
      (upload_slack_file ("C123") fp title comment
          { fsExists := fun _ => true, fileSize := sz, listChannelsH := lch,
            step1H := remoteErr tag tk, step2 := s2, step3H := s3 }).2
        = ("❌ 파일 업로드 실패: ")
          ++ (("파일 업로드 실패: ") ++ (("Slack API Error: ") ++ tag))
          ++ ("\n파일: ") ++ fp ++ ("\n채널: ") ++ ("C123")) ∧
    (∀ (fp m : String) (title comment : Option String) (sz : Int)
        (lch : HTTPResult (List RawChannel))
        (s2 : SlackAPIClient.Step2Result) (s3 : HTTPResult CompletePayload),
      (upload_slack_file ("C123") fp title comment
          { fsExists := fun _ => true, fileSize := sz, listChannelsH := lch,
            step1H := netFail m, step2 := s2, step3H := s3 }).2
        = ("❌ 파일 업로드 실패: ")
          ++ (("파일 업로드 실패: ") ++ (("Slack API Error: ")
            ++ (("Network error: ") ++ m)))
          ++ ("\n파일: ") ++ fp ++ ("\n채널: ") ++ ("C123")) ∧
    (∀ (fmtTs : String → String) (ch ts emoji tag : String),
      (add_slack_reaction fmtTs ch ts emoji (remoteErr tag ())).2
        = ("❌ 이모지 반응 추가 실패: ") ++ tag ++ ("\n채널: ") ++ ch
          ++ ("\n타임스탬프: ") ++ ts ++ ("\n이모지: ") ++ pyStrip ':' emoji) ∧
    (∀ (fmtTs : String → String) (ch ts emoji m : String),
      (add_slack_reaction fmtTs ch ts emoji (netFail m)).2
        = ("❌ 이모지 반응 추가 실패: ") ++ (("Network error: ") ++ m)
          ++ ("\n채널: ") ++ ch ++ ("\n타임스탬프: ") ++ ts
          ++ ("\n이모지: ") ++ pyStrip ':' emoji) ∧
    (∀ (fmtTs : String → String) (ch ts tag : String) (p : List RawMessage),
      (get_slack_thread_replies fmtTs ch ts (remoteErr tag p)).2
        = ("❌ 스레드 답글 조회 실패: ") ++ tag ++ ("\n채널: ") ++ ch
          ++ ("\n스레드: ") ++ ts) ∧
    (∀ (fmtTs : String → String) (ch ts m : String),
      (get_slack_thread_replies fmtTs ch ts (netFail m)).2
        = ("❌ 스레드 답글 조회 실패: ") ++ (("Network error: ") ++ m)
          ++ ("\n채널: ") ++ ch ++ ("\n스레드: ") ++ ts) ∧
    (∀ (fmtTs : String → String) (ch ts tx tag : String) (p : SendPayload),
      (send_slack_thread_reply fmtTs ch ts tx (remoteErr tag p)).2
        = ("❌ 스레드 답글 전송 실패: ") ++ tag ++ ("\n채널: ") ++ ch
          ++ ("\n스레드: ") ++ ts ++ ("\n답글: ") ++ tx) ∧
    (∀ (fmtTs : String → String) (ch ts tx m : String),
      (send_slack_thread_reply fmtTs ch ts tx (netFail m)).2
        = ("❌ 스레드 답글 전송 실패: ") ++ (("Network error: ") ++ m)
          ++ ("\n채널: ") ++ ch ++ ("\n스레드: ") ++ ts ++ ("\n답글: ") ++ tx) ∧
    (∀ (nowStr tag : String) (p : AuthPayload),
      (test_slack_connection nowStr (remoteErr tag p)).2
        = ("❌ Slack API 연결 실패: ") ++ tag ++ ("\n토큰을 확인해주세요.")) ∧
    (∀ nowStr m : String,
      (test_slack_connection nowStr (netFail m)).2
        = ("❌ Slack API 연결 실패: ") ++ (("Network error: ") ++ m)
          ++ ("\n토큰을 확인해주세요.")) := by
  refine ⟨fun fmtTs ch tx tag p => rfl, fun fmtTs ch tx m => rfl, ?_, ?_, ?_, ?_,
    fun fmtTs ch lim ts txt => rfl, fun fmtTs uid tx tag p hSend hUser => rfl,
    fun fmtTs uid tx cid tag p hUser => rfl, fun fmtTs uid tx m hSend hUser => rfl,
    fun lim tag p => rfl, fun lim m => rfl, ?_, ?_,
    fun fp tag title comment sz lch tk s2 s3 => rfl,
    fun fp m title comment sz lch s2 s3 => rfl,
    fun fmtTs ch ts emoji tag => rfl, fun fmtTs ch ts emoji m => rfl,
    fun fmtTs ch ts tag p => rfl, fun fmtTs ch ts m => rfl,
    fun fmtTs ch ts tx tag p => rfl, fun fmtTs ch ts tx m => rfl,
    fun nowStr tag p => rfl, fun nowStr m => rfl⟩
  · intro tag p
    cases htag : hasSubstr tag ("missing_scope") <;>
      simp [get_slack_channels, SlackAPIClient.get_channels,
        SlackAPIClient._make_request, remoteErr, htag]
  · intro m
    cases hm : hasSubstr (("Network error: ") ++ m) ("missing_scope") <;>
      simp [get_slack_channels, SlackAPIClient.get_channels,
        SlackAPIClient._make_request, netFail, hm]
  · intro pf fmtTs ch lim tag p
    cases htag : hasSubstr tag ("missing_scope") <;>
      simp [get_slack_channel_history, SlackAPIClient.get_channel_history,
        SlackAPIClient._make_request, remoteErr, htag]
  · intro pf fmtTs ch lim m
    cases hm : hasSubstr (("Network error: ") ++ m) ("missing_scope") <;>
      simp [get_slack_channel_history, SlackAPIClient.get_channel_history,
        SlackAPIClient._make_request, netFail, hm]
  · intro fmtTs q cnt tag p
    by_cases htag : tag = ("not_allowed_token_type") ∨ tag = ("missing_scope") <;>
      simp [search_slack_messages, SlackAPIClient.search_messages,
        SlackAPIClient._make_request, remoteErr, htag]
  · intro fmtTs q cnt m
    by_cases hm : ("Network error: ") ++ m = ("not_allowed_token_type")
        ∨ ("Network error: ") ++ m = ("missing_scope") <;>
      simp [search_slack_messages, SlackAPIClient.search_messages,
        SlackAPIClient._make_request, netFail, hm]

/-- Counterexample to C1 as stated: on a typed client failure the list-users
tool's rendered failure string does not embed its original call parameter
(limit 7 — no `7` occurs in the rendering). -/
theorem c1_counterexample :
    (get_slack_users 7 (remoteErr ("some_error") [])).2
      = ("❌ 사용자 목록 조회 실패: ") ++ ("some_error") ∧
    hasSubstr (("❌ 사용자 목록 조회 실패: ") ++ ("some_error")) ("7") = false :=
  ⟨rfl, by decide⟩

end SlackMCP
